import Mathlib

/-!
Verification development for the RadioStationBuilder repository
(src/build_radio_show.py and src/radio_station_gui.py).

The audio engine manipulates pydub AudioSegment buffers.  We embed a buffer
as a list of symbolic samples, one sample per millisecond: the per-sample
arithmetic (dB gain, fade curves, mixing) is performed by the external audio
service and is kept symbolic via constructors, while every duration /
slicing / error behaviour of the pydub primitives used by the source is
modelled exactly (Python slice semantics, overlay keeping the base length,
append raising when the crossfade exceeds either operand).
-/

set_option autoImplicit false
set_option maxRecDepth 100000

/-- A symbolic audio sample.  Constructors record which external audio-service
operation produced the sample; durations and control flow stay exact. -/
inductive Sample where
  | silence : Sample
  | src : String → Nat → Sample
  | gain : Int → Sample → Sample
  | fadedIn : Nat → Nat → Sample → Sample
  | fadedOut : Nat → Nat → Sample → Sample
  | mix : Sample → Sample → Sample
deriving DecidableEq

/-- An audio buffer: one symbolic sample per millisecond. -/
abbrev Buffer := List Sample

deriving instance DecidableEq for Except

/-- Duration of a buffer in milliseconds (pydub len(seg)). -/
def duration (b : Buffer) : Nat := b.length

/-- pydub AudioSegment.silent(duration=d). -/
def silent (d : Nat) : Buffer := List.replicate d Sample.silence

/-- Helper for fade_in: walks the buffer carrying the absolute position. -/
def fadeInFrom (d i : Nat) : Buffer → Buffer
  | [] => []
  | s :: rest => (if i < d then Sample.fadedIn d i s else s) :: fadeInFrom d (i + 1) rest

/-- pydub seg.fade_in(d): ramps the first d milliseconds, length unchanged. -/
def fade_in (d : Nat) (b : Buffer) : Buffer := fadeInFrom d 0 b

/-- Helper for fade_out: n is the total length, i the absolute position. -/
def fadeOutFrom (d n i : Nat) : Buffer → Buffer
  | [] => []
  | s :: rest => (if n ≤ i + d then Sample.fadedOut d i s else s) :: fadeOutFrom d n (i + 1) rest

/-- pydub seg.fade_out(d): ramps the last d milliseconds, length unchanged. -/
def fade_out (d : Nat) (b : Buffer) : Buffer := fadeOutFrom d b.length 0 b

/-- pydub seg + db (apply_gain): per-sample gain shift, length unchanged. -/
def apply_gain (db : Int) (b : Buffer) : Buffer := b.map (Sample.gain db)

/-- pydub base.overlay(top): top is mixed onto base; the result keeps the
length of the base, a longer top is truncated. -/
def overlay : Buffer → Buffer → Buffer
  | base, [] => base
  | [], _ => []
  | b :: bs, t :: ts => Sample.mix t b :: overlay bs ts

/-- Normalise a Python slice endpoint for a list of length n
(negative indices count from the end, everything is clamped into [0, n]). -/
def pyIdx (n : Nat) (i : Int) : Nat :=
  if i < 0 then ((n : Int) + i).toNat else min i.toNat n

/-- Python slice seg[start:stop] in milliseconds, step 1; none is an omitted
endpoint. -/
def pySlice (b : Buffer) (start stop : Option Int) : Buffer :=
  let s := match start with
    | none => 0
    | some i => pyIdx b.length i
  let e := match stop with
    | none => b.length
    | some i => pyIdx b.length i
  (b.drop s).take (e - s)

/-- pydub seg1.append(seg2, crossfade=cf).  A zero crossfade is a plain
concatenation; otherwise pydub raises ValueError when the crossfade is longer
than either operand, and on success overlaps the last/first cf milliseconds
with inverse fades. -/
def appendCrossfade (a b : Buffer) (cf : Nat) : Except String Buffer :=
  if cf = 0 then Except.ok (a ++ b)
  else if a.length < cf then Except.error "Crossfade is longer than the original AudioSegment"
  else if b.length < cf then Except.error "Crossfade is longer than the appended AudioSegment"
  else
    let xa := fade_out cf (pySlice a (some (-(cf : Int))) none)
    let xb := fade_in cf (pySlice b none (some (cf : Int)))
    Except.ok (pySlice a none (some (-(cf : Int))) ++ overlay xa xb ++ pySlice b (some (cf : Int)) none)

/-- build_radio_show.py apply_fade: fade in then fade out. -/
def apply_fade (a : Buffer) (fade_in_ms fade_out_ms : Nat) : Buffer :=
  fade_out fade_out_ms (fade_in fade_in_ms a)

/-! ## String helpers (Python str.lower, startswith, substring containment) -/

/-- Python s.lower() restricted to the character-wise case fold. -/
def lowerString (s : String) : String := ⟨s.data.map Char.toLower⟩

/-- Python needle in hay, on explicit character lists. -/
def containsSub (needle hay : List Char) : Bool :=
  hay.tails.any (fun t => needle.isPrefixOf t)

/-- build_radio_show.py / radio_station_gui.py: "intro" in segment_name.lower(). -/
def is_intro (name : String) : Bool := containsSub "intro".data (lowerString name).data

/-- build_radio_show.py / radio_station_gui.py: "outro" in segment_name.lower(). -/
def is_outro (name : String) : Bool := containsSub "outro".data (lowerString name).data

/-! ## Asset resolver (get_voice_segments, identical in both source files) -/

/-- A directory entry as seen through pathlib: stem and extension
(the extension keeps its leading dot, as Python file.suffix does). -/
structure FileName where
  stem : String
  ext : String
deriving DecidableEq

/-- The match test of get_voice_segments: case-insensitive stem starts with
the identifier and the extension is a recognised voice extension. -/
def matches_ident (ident : String) (f : FileName) : Bool :=
  (lowerString ident).data.isPrefixOf (lowerString f.stem).data
    && [".mp3", ".wav", ".m4a", ".ogg"].contains (lowerString f.ext)

/-- get_voice_segments (radio_station_gui.py lines 1298-1308 and
build_radio_show.py lines 61-72): for each configured identifier in order,
append the first matching file of the folder, if any; identifiers with no
match are silently skipped. -/
def get_voice_segments (order : List String) (files : List FileName) : List (String × FileName) :=
  match order with
  | [] => []
  | ident :: rest =>
    match files.find? (fun f => matches_ident ident f) with
    | some f => (ident, f) :: get_voice_segments rest files
    | none => get_voice_segments rest files

/-- The resolver as the spec words it (section 4.1): a found list together
with a missing list.  This definition follows the specification text and is
compared against the source definition above. -/
def resolve_segments_spec (order : List String) (files : List FileName) :
    List (String × FileName) × List String :=
  match order with
  | [] => ([], [])
  | ident :: rest =>
    let r := resolve_segments_spec rest files
    match files.find? (fun f => matches_ident ident f) with
    | some f => ((ident, f) :: r.1, r.2)
    | none => (r.1, ident :: r.2)

/-! ## Freshness gate (radio_station_gui.py check_files_freshness) -/

/-- Python round to the nearest integer with ties to even (the idealised
decimal reading of round()). -/
def roundHalfEven (x : ℚ) : ℤ :=
  let f := ⌊x⌋
  if x - f < 1 / 2 then f
  else if (1 : ℚ) / 2 < x - f then f + 1
  else if f % 2 = 0 then f else f + 1

/-- Python round(x, 1). -/
def round1 (x : ℚ) : ℚ := (roundHalfEven (10 * x) : ℚ) / 10

/-- The stale-file scan of check_files_freshness: mtimes are seconds, ages
are minutes, a file is stale when its age strictly exceeds the limit. -/
def staleScan (max_age_minutes now : ℚ) : List (String × ℚ) → List (String × ℚ)
  | [] => []
  | (name, mtime) :: rest =>
    let age_minutes := (now - mtime) / 60
    if age_minutes > max_age_minutes then (name, round1 age_minutes) :: staleScan max_age_minutes now rest
    else staleScan max_age_minutes now rest

/-- check_files_freshness (radio_station_gui.py lines 1278-1296): returns
(all_fresh, stale_files) where all_fresh is len(stale_files) == 0. -/
def check_files_freshness (max_age_minutes now : ℚ) (voice_segments : List (String × ℚ)) :
    Bool × List (String × ℚ) :=
  let stale_files := staleScan max_age_minutes now voice_segments
  (stale_files.length == 0, stale_files)

/-! ## Auto-build debounce (radio_station_gui.py on_segment_change)

The watcher state carries the deadline of the single outstanding Tk timer,
if any, and counts how many times the timer callback check_and_build has
fired (each firing is one readiness evaluation, the only way into Building).
Events are delivered in time order; a pending timer whose deadline has
passed fires before the next event is handled. -/

structure WatchState where
  deadline : Option Nat
  checks : Nat
deriving DecidableEq

/-- on_segment_change (radio_station_gui.py lines 564-579): cancel any
existing timer and schedule a new one at now + delay. -/
def on_segment_change (delay t : Nat) (st : WatchState) : WatchState :=
  { deadline := some (t + delay), checks := st.checks }

/-- Deliver a file event at time t: first fire a pending timer whose
deadline has already been reached, then run the change handler. -/
def deliverEvent (delay : Nat) (st : WatchState) (t : Nat) : WatchState :=
  let st' := match st.deadline with
    | some d => if d ≤ t then { deadline := none, checks := st.checks + 1 } else st
    | none => st
  on_segment_change delay t st'

/-- Run the watcher over a time-ordered list of file events; once the events
stop, the outstanding timer (if any) eventually fires. -/
def run_watch (delay : Nat) (events : List Nat) : WatchState :=
  let st := events.foldl (deliverEvent delay) { deadline := none, checks := 0 }
  match st.deadline with
  | some _ => { deadline := none, checks := st.checks + 1 }
  | none => st

/-! ## The GUI engine (radio_station_gui.py)

Songs are file paths (strings); decoding is the external audio service and
is a parameter decode : String → Option Buffer, none being a decode failure
(the Python exception caught by the per-song try/except).  random.shuffle
mutates the list in place, so it is a parameter shuffle and the current
song list is threaded through and returned.  The GUI song-block loops have
no bound on retries, so they are embedded with explicit fuel: a none result
means the loop is still running after fuel iterations. -/

namespace RadioStationGui

/-- Timeline events observed during a build, mirroring the log calls of the
source: one seg per processed voice segment, one duck when ducking is
applied to a voice, one songBlock per song block appended to the show. -/
inductive BuildEvent where
  | seg : String → BuildEvent
  | duck : String → BuildEvent
  | songBlock : BuildEvent
deriving DecidableEq

/-- The configuration values read from the GUI controls by build_show. -/
structure GuiCfg where
  crossfade : Nat
  songs_between : Nat
  voice_fade : Nat
  song_fade : Nat
  ducking_enabled : Bool
  duck_db : Int
  duck_fade : Nat

/-- create_ducked_segment (radio_station_gui.py lines 1214-1269): edge-only
ducking.  The try/except of the source only matters for failing buffer
operations, which cannot occur in this model. -/
def create_ducked_segment (voice_fade : Nat) (voice music_source : Buffer)
    (duck_db : Int) (duck_fade : Nat) : Buffer :=
  let voice_length := voice.length
  let overlap_duration := min (duck_fade + voice_fade) (voice_length / 3)
  if overlap_duration < 100 then voice
  else
    let music_for_intro :=
      if overlap_duration ≤ music_source.length then
        pySlice music_source (some (-(overlap_duration : Int))) none
      else music_source
    let music_for_intro :=
      if music_for_intro.length < overlap_duration then
        silent (overlap_duration - music_for_intro.length) ++ music_for_intro
      else music_for_intro
    let music_intro_ducked := fade_out overlap_duration (apply_gain duck_db music_for_intro)
    let voice_intro := pySlice voice none (some (overlap_duration : Int))
    let transition_in := overlay music_intro_ducked voice_intro
    let voice_middle :=
      if overlap_duration * 2 < voice_length then
        pySlice voice (some (overlap_duration : Int)) (some (-(overlap_duration : Int)))
      else []
    let music_for_outro :=
      if overlap_duration ≤ music_source.length then
        pySlice music_source none (some (overlap_duration : Int))
      else music_source
    let music_for_outro :=
      if music_for_outro.length < overlap_duration then
        music_for_outro ++ silent (overlap_duration - music_for_outro.length)
      else music_for_outro
    let music_outro_ducked := fade_in overlap_duration (apply_gain duck_db music_for_outro)
    let voice_outro := pySlice voice (some (-(overlap_duration : Int))) none
    let transition_out := overlay music_outro_ducked voice_outro
    transition_in ++ voice_middle ++ transition_out

/-- The while loop of create_song_block_with_tracking (radio_station_gui.py
lines 1357-1376): at wraparound the list is reshuffled and the index reset,
decode or append failures are logged and skipped.  An out-of-range access
would be a Python IndexError, modelled in the error channel (unreachable
for a length-preserving shuffle). -/
def song_block_loop (shuffle : List String → List String) (decode : String → Option Buffer)
    (fade cf count : Nat) :
    Nat → List String → Nat → Option Buffer → Option Buffer → Nat →
    Option (Except String (Buffer × List String × Nat × Option Buffer))
  | fuel, songs, song_index, block, last_song, songs_added =>
    if count ≤ songs_added then
      some (Except.ok (block.getD (silent 1000), songs, song_index, last_song))
    else
      match fuel with
      | 0 => none
      | fuel' + 1 =>
        let songs' := if songs.length ≤ song_index then shuffle songs else songs
        let idx' := if songs.length ≤ song_index then 0 else song_index
        match songs'[idx']? with
        | none => some (Except.error "IndexError: list index out of range")
        | some song_path =>
          match decode song_path with
          | none => song_block_loop shuffle decode fade cf count fuel' songs' (idx' + 1) block last_song songs_added
          | some s0 =>
            let song := fade_out fade (fade_in fade s0)
            match block with
            | none =>
              song_block_loop shuffle decode fade cf count fuel' songs' (idx' + 1)
                (some song) (some song) (songs_added + 1)
            | some b =>
              match appendCrossfade b song cf with
              | Except.error _ =>
                song_block_loop shuffle decode fade cf count fuel' songs' (idx' + 1)
                  (some b) last_song songs_added
              | Except.ok b2 =>
                song_block_loop shuffle decode fade cf count fuel' songs' (idx' + 1)
                  (some b2) (some song) (songs_added + 1)

/-- The while loop of create_song_block (radio_station_gui.py lines
1326-1343): identical to the tracking loop except that the last song is not
reported. -/
def song_block_loop_nt (shuffle : List String → List String) (decode : String → Option Buffer)
    (fade cf count : Nat) :
    Nat → List String → Nat → Option Buffer → Nat →
    Option (Except String (Buffer × List String × Nat))
  | fuel, songs, song_index, block, songs_added =>
    if count ≤ songs_added then
      some (Except.ok (block.getD (silent 1000), songs, song_index))
    else
      match fuel with
      | 0 => none
      | fuel' + 1 =>
        let songs' := if songs.length ≤ song_index then shuffle songs else songs
        let idx' := if songs.length ≤ song_index then 0 else song_index
        match songs'[idx']? with
        | none => some (Except.error "IndexError: list index out of range")
        | some song_path =>
          match decode song_path with
          | none => song_block_loop_nt shuffle decode fade cf count fuel' songs' (idx' + 1) block songs_added
          | some s0 =>
            let song := fade_out fade (fade_in fade s0)
            match block with
            | none =>
              song_block_loop_nt shuffle decode fade cf count fuel' songs' (idx' + 1)
                (some song) (songs_added + 1)
            | some b =>
              match appendCrossfade b song cf with
              | Except.error _ =>
                song_block_loop_nt shuffle decode fade cf count fuel' songs' (idx' + 1)
                  (some b) songs_added
              | Except.ok b2 =>
                song_block_loop_nt shuffle decode fade cf count fuel' songs' (idx' + 1)
                  (some b2) (songs_added + 1)

/-- create_song_block (radio_station_gui.py lines 1316-1344). -/
def create_song_block (shuffle : List String → List String) (decode : String → Option Buffer)
    (fade cf : Nat) (songs : List String) (count song_index fuel : Nat) :
    Option (Except String (Buffer × List String × Nat)) :=
  if songs = [] then some (Except.ok (silent 1000, songs, song_index))
  else song_block_loop_nt shuffle decode fade cf count fuel songs song_index none 0

/-- create_song_block_with_tracking (radio_station_gui.py lines 1346-1376). -/
def create_song_block_with_tracking (shuffle : List String → List String)
    (decode : String → Option Buffer) (fade cf : Nat) (songs : List String)
    (count song_index fuel : Nat) :
    Option (Except String (Buffer × List String × Nat × Option Buffer)) :=
  if songs = [] then some (Except.ok (silent 1000, songs, song_index, none))
  else song_block_loop shuffle decode fade cf count fuel songs song_index none none 0

/-- The mutable build state of the build_show loop. -/
structure GuiState where
  songs : List String
  song_index : Nat
  final : Option Buffer
  last_song : Option Buffer
deriving DecidableEq

/-- Prefix the events of a step result. -/
def withEvents (pre : List BuildEvent) :
    Option (Except String (GuiState × List BuildEvent)) →
    Option (Except String (GuiState × List BuildEvent))
  | none => none
  | some (Except.error e) => some (Except.error e)
  | some (Except.ok (st, evs)) => some (Except.ok (st, pre ++ evs))

/-- Shared tail of the intro and middle branches: build a fresh song block
and append it to the show with the configured crossfade, updating the song
list, cursor and last song for ducking. -/
def add_song_block (cfg : GuiCfg) (shuffle : List String → List String)
    (decode : String → Option Buffer) (fuel : Nat) (st : GuiState) (f1 : Buffer) :
    Option (Except String (GuiState × List BuildEvent)) :=
  match create_song_block_with_tracking shuffle decode cfg.song_fade cfg.crossfade
      st.songs cfg.songs_between st.song_index fuel with
  | none => none
  | some (Except.error e) => some (Except.error e)
  | some (Except.ok (song_block, songs2, idx2, last2)) =>
    match appendCrossfade f1 song_block cfg.crossfade with
    | Except.error e => some (Except.error e)
    | Except.ok f2 =>
      some (Except.ok ({ songs := songs2, song_index := idx2, final := some f2, last_song := last2 },
        [BuildEvent.songBlock]))

/-- The intro branch of build_show (radio_station_gui.py lines 1011-1017):
seed or crossfade-append the voice, then always append a song block. -/
def step_intro (cfg : GuiCfg) (shuffle : List String → List String)
    (decode : String → Option Buffer) (fuel : Nat) (st : GuiState) (voice : Buffer) :
    Option (Except String (GuiState × List BuildEvent)) :=
  let f1res : Except String Buffer :=
    match st.final with
    | none => Except.ok voice
    | some f => appendCrossfade f voice cfg.crossfade
  match f1res with
  | Except.error e => some (Except.error e)
  | Except.ok f1 => add_song_block cfg shuffle decode fuel st f1

/-- The outro branch of build_show (radio_station_gui.py lines 1019-1021):
append the voice, no songs afterwards, reset the ducking state.  Appending
onto a missing show is Python AttributeError on None. -/
def step_outro (cfg : GuiCfg) (st : GuiState) (voice : Buffer) :
    Except String (GuiState × List BuildEvent) :=
  match st.final with
  | none => Except.error "AttributeError: NoneType has no attribute append"
  | some f =>
    match appendCrossfade f voice cfg.crossfade with
    | Except.error e => Except.error e
    | Except.ok f1 => Except.ok ({ st with final := some f1, last_song := none }, [])

/-- The middle branch of build_show (radio_station_gui.py lines 1023-1031):
append the voice, then always append a song block. -/
def step_middle (cfg : GuiCfg) (shuffle : List String → List String)
    (decode : String → Option Buffer) (fuel : Nat) (st : GuiState) (voice : Buffer) :
    Option (Except String (GuiState × List BuildEvent)) :=
  match st.final with
  | none => some (Except.error "AttributeError: NoneType has no attribute append")
  | some f =>
    match appendCrossfade f voice cfg.crossfade with
    | Except.error e => some (Except.error e)
    | Except.ok f1 => add_song_block cfg shuffle decode fuel st f1

/-- One iteration of the build_show segment loop (radio_station_gui.py
lines 996-1031): fade the decoded voice, duck it when ducking is enabled,
a previous song exists and the segment is not an intro, then dispatch on
the role, testing intro before outro. -/
def process_segment (cfg : GuiCfg) (shuffle : List String → List String)
    (decode : String → Option Buffer) (fuel : Nat) (st : GuiState)
    (name : String) (v0 : Buffer) :
    Option (Except String (GuiState × List BuildEvent)) :=
  let voice1 := fade_out cfg.voice_fade (fade_in cfg.voice_fade v0)
  let duckNow := cfg.ducking_enabled && st.last_song.isSome && !(is_intro name)
  let voice :=
    if duckNow then
      create_ducked_segment cfg.voice_fade voice1 (st.last_song.getD []) cfg.duck_db cfg.duck_fade
    else voice1
  let pre := BuildEvent.seg name :: (if duckNow then [BuildEvent.duck name] else [])
  if is_intro name then withEvents pre (step_intro cfg shuffle decode fuel st voice)
  else if is_outro name then withEvents pre (some (step_outro cfg st voice))
  else withEvents pre (step_middle cfg shuffle decode fuel st voice)

/-- The segment loop of build_show; the trace of a successful build is the
concatenation of the per-segment event chunks. -/
def build_show_go (cfg : GuiCfg) (shuffle : List String → List String)
    (decode : String → Option Buffer) (fuel : Nat) :
    List (String × Buffer) → GuiState → Option (Except String (Buffer × List BuildEvent))
  | [], st =>
    match st.final with
    | some f => some (Except.ok (f, []))
    | none => some (Except.error "AttributeError: NoneType cannot be exported")
  | (name, v0) :: rest, st =>
    match process_segment cfg shuffle decode fuel st name v0 with
    | none => none
    | some (Except.error e) => some (Except.error e)
    | some (Except.ok (st2, chunk)) =>
      match build_show_go cfg shuffle decode fuel rest st2 with
      | none => none
      | some (Except.error e) => some (Except.error e)
      | some (Except.ok (buf, tr)) => some (Except.ok (buf, chunk ++ tr))

/-- build_show (radio_station_gui.py lines 983-1031), with the freshness
gate disabled; voice segments arrive already decoded, song decoding is the
decode parameter.  none means a song-block loop was still running when its
fuel ran out. -/
def build_show (cfg : GuiCfg) (shuffle : List String → List String)
    (decode : String → Option Buffer) (fuel : Nat)
    (voice_segments : List (String × Buffer)) (songs : List String) :
    Option (Except String (Buffer × List BuildEvent)) :=
  if voice_segments = [] then some (Except.error "No voice segments found!")
  else if songs = [] then some (Except.error "No songs found!")
  else build_show_go cfg shuffle decode fuel voice_segments
    { songs := songs, song_index := 0, final := none, last_song := none }

end RadioStationGui

/-! ## The CLI engine (build_radio_show.py)

The module-level configuration constants are a CliCfg record.  This engine
never reshuffles inside a block (it wraps with modulo indexing) and both of
its loops are bounded, so everything is total. -/

namespace BuildRadioShow

/-- The module-level configuration constants of build_radio_show.py. -/
structure CliCfg where
  crossfade : Nat
  voice_fade_in : Nat
  voice_fade_out : Nat
  song_fade_in : Nat
  song_fade_out : Nat
  songs_between : Nat

/-- First loop of create_song_block (build_radio_show.py lines 101-117):
walk forward while songs remain, skipping songs that fail to decode or
append. -/
def song_block_loop1 (decode : String → Option Buffer) (cfg : CliCfg) (count : Nat)
    (songs : List String) (song_index : Nat) (block : Option Buffer) (songs_added : Nat) :
    Option Buffer × Nat × Nat :=
  if h : songs_added < count ∧ song_index < songs.length then
    let song_path := songs.get ⟨song_index, h.2⟩
    match decode song_path with
    | none => song_block_loop1 decode cfg count songs (song_index + 1) block songs_added
    | some s0 =>
      let song := apply_fade s0 cfg.song_fade_in cfg.song_fade_out
      match block with
      | none => song_block_loop1 decode cfg count songs (song_index + 1) (some song) (songs_added + 1)
      | some b =>
        match appendCrossfade b song cfg.crossfade with
        | Except.error _ => song_block_loop1 decode cfg count songs (song_index + 1) (some b) songs_added
        | Except.ok b2 => song_block_loop1 decode cfg count songs (song_index + 1) (some b2) (songs_added + 1)
  else (block, song_index, songs_added)
termination_by songs.length - song_index

/-- Second loop of create_song_block (build_radio_show.py lines 119-138):
wrap around with modulo indexing, no reshuffle, and break on the first
failure.  The impossible out-of-range access (the caller guarantees a
non-empty list) returns the state unchanged. -/
def song_block_loop2 (decode : String → Option Buffer) (cfg : CliCfg) (count : Nat)
    (songs : List String) (song_index : Nat) (block : Option Buffer) (songs_added : Nat) :
    Option Buffer × Nat :=
  if songs_added < count then
    match songs[song_index % songs.length]? with
    | none => (block, song_index)
    | some song_path =>
      match decode song_path with
      | none => (block, song_index + 1)
      | some s0 =>
        let song := apply_fade s0 cfg.song_fade_in cfg.song_fade_out
        match block with
        | none => song_block_loop2 decode cfg count songs (song_index + 1) (some song) (songs_added + 1)
        | some b =>
          match appendCrossfade b song cfg.crossfade with
          | Except.error _ => (some b, song_index + 1)
          | Except.ok b2 => song_block_loop2 decode cfg count songs (song_index + 1) (some b2) (songs_added + 1)
  else (block, song_index)
termination_by count - songs_added

/-- create_song_block (build_radio_show.py lines 90-140). -/
def create_song_block (decode : String → Option Buffer) (cfg : CliCfg)
    (songs : List String) (count song_index : Nat) : Buffer × Nat :=
  if songs = [] then (silent 1000, song_index)
  else
    let r1 := song_block_loop1 decode cfg count songs song_index none 0
    if r1.2.2 < count ∧ songs ≠ [] then
      let r2 := song_block_loop2 decode cfg count songs 0 r1.1 r1.2.2
      (r2.1.getD (silent 1000), r2.2)
    else (r1.1.getD (silent 1000), r1.2.1)

/-- The segment loop of build_radio_show (build_radio_show.py lines
170-207): no ducking; after a middle segment a song block is added only
when the next segment is not an outro. -/
def build_radio_show_go (decode : String → Option Buffer) (cfg : CliCfg) :
    List (String × Buffer) → List String → Nat → Option Buffer →
    Except String (Buffer × List RadioStationGui.BuildEvent)
  | [], _, _, final =>
    match final with
    | some f => Except.ok (f, [])
    | none => Except.error "AttributeError: NoneType cannot be exported"
  | (name, v0) :: rest, songs, song_index, final =>
    let voice := apply_fade v0 cfg.voice_fade_in cfg.voice_fade_out
    if is_intro name then
      let f1res : Except String Buffer :=
        match final with
        | none => Except.ok voice
        | some f => appendCrossfade f voice cfg.crossfade
      match f1res with
      | Except.error e => Except.error e
      | Except.ok f1 =>
        let r := create_song_block decode cfg songs cfg.songs_between song_index
        match appendCrossfade f1 r.1 cfg.crossfade with
        | Except.error e => Except.error e
        | Except.ok f2 =>
          match build_radio_show_go decode cfg rest songs r.2 (some f2) with
          | Except.error e => Except.error e
          | Except.ok (buf, tr) =>
            Except.ok (buf, RadioStationGui.BuildEvent.seg name :: RadioStationGui.BuildEvent.songBlock :: tr)
    else if is_outro name then
      match final with
      | none => Except.error "AttributeError: NoneType has no attribute append"
      | some f =>
        match appendCrossfade f voice cfg.crossfade with
        | Except.error e => Except.error e
        | Except.ok f1 =>
          match build_radio_show_go decode cfg rest songs song_index (some f1) with
          | Except.error e => Except.error e
          | Except.ok (buf, tr) => Except.ok (buf, RadioStationGui.BuildEvent.seg name :: tr)
    else
      match final with
      | none => Except.error "AttributeError: NoneType has no attribute append"
      | some f =>
        match appendCrossfade f voice cfg.crossfade with
        | Except.error e => Except.error e
        | Except.ok f1 =>
          let next_is_outro :=
            match rest with
            | (n2, _) :: _ => is_outro n2
            | [] => false
          if next_is_outro then
            match build_radio_show_go decode cfg rest songs song_index (some f1) with
            | Except.error e => Except.error e
            | Except.ok (buf, tr) => Except.ok (buf, RadioStationGui.BuildEvent.seg name :: tr)
          else
            let r := create_song_block decode cfg songs cfg.songs_between song_index
            match appendCrossfade f1 r.1 cfg.crossfade with
            | Except.error e => Except.error e
            | Except.ok f2 =>
              match build_radio_show_go decode cfg rest songs r.2 (some f2) with
              | Except.error e => Except.error e
              | Except.ok (buf, tr) =>
                Except.ok (buf, RadioStationGui.BuildEvent.seg name :: RadioStationGui.BuildEvent.songBlock :: tr)

/-- build_radio_show (build_radio_show.py lines 143-234), up to the export;
voice segments arrive already decoded. -/
def build_radio_show (decode : String → Option Buffer) (cfg : CliCfg)
    (voice_segments : List (String × Buffer)) (songs : List String) :
    Except String (Buffer × List RadioStationGui.BuildEvent) :=
  if voice_segments = [] then Except.error "No voice segments found!"
  else if songs = [] then Except.error "No songs found!"
  else build_radio_show_go decode cfg voice_segments songs 0 none

end BuildRadioShow

/-! ## Concrete instances used by witnesses and counterexamples -/

/-- A decoder that succeeds on every path with a one-millisecond buffer
tagged with the path. -/
def decSrc : String → Option Buffer := fun p => some [Sample.src p 0]

/-- A decoder that succeeds on every path with one millisecond of silence. -/
def decOne : String → Option Buffer := fun _ => some [Sample.silence]

/-- A decoder for which every song fails to decode. -/
def decFail : String → Option Buffer := fun _ => none

/-- A decoder that always yields a 500 ms buffer. -/
def dec500 : String → Option Buffer := fun _ => some (silent 500)

/-- GUI configuration with the crossfade of the C1 scenario (4000 ms). -/
def cfgC1 : RadioStationGui.GuiCfg :=
  { crossfade := 4000, songs_between := 1, voice_fade := 0, song_fade := 0,
    ducking_enabled := false, duck_db := -12, duck_fade := 500 }

/-- GUI configuration with zero fades and crossfade, one song per block. -/
def cfgTiny : RadioStationGui.GuiCfg :=
  { crossfade := 0, songs_between := 1, voice_fade := 0, song_fade := 0,
    ducking_enabled := false, duck_db := -12, duck_fade := 0 }

/-- CLI configuration with zero fades and crossfade, one song per block. -/
def cfgTinyCli : BuildRadioShow.CliCfg :=
  { crossfade := 0, voice_fade_in := 0, voice_fade_out := 0,
    song_fade_in := 0, song_fade_out := 0, songs_between := 1 }

/-- CLI configuration with zero fades and crossfade, four songs per block. -/
def cfgTinyCli4 : BuildRadioShow.CliCfg :=
  { crossfade := 0, voice_fade_in := 0, voice_fade_out := 0,
    song_fade_in := 0, song_fade_out := 0, songs_between := 4 }

/-- The three-segment order Intro, Middle, Outro over one-millisecond
silence buffers. -/
def segsIMO : List (String × Buffer) :=
  [("001_intro", [Sample.silence]), ("002_news", [Sample.silence]), ("003_outro", [Sample.silence])]

/-! ## Length lemmas for the audio-buffer primitives -/

@[simp] theorem length_fadeInFrom (d i : Nat) (b : Buffer) :
    (fadeInFrom d i b).length = b.length := by
  induction b generalizing i with
  | nil => rfl
  | cons s rest ih => simp [fadeInFrom, ih]

@[simp] theorem length_fade_in (d : Nat) (b : Buffer) : (fade_in d b).length = b.length := by
  simp [fade_in]

@[simp] theorem length_fadeOutFrom (d n i : Nat) (b : Buffer) :
    (fadeOutFrom d n i b).length = b.length := by
  induction b generalizing i with
  | nil => rfl
  | cons s rest ih => simp [fadeOutFrom, ih]

@[simp] theorem length_fade_out (d : Nat) (b : Buffer) : (fade_out d b).length = b.length := by
  simp [fade_out]

@[simp] theorem length_apply_gain (db : Int) (b : Buffer) :
    (apply_gain db b).length = b.length := by
  simp [apply_gain]

@[simp] theorem length_overlay (b t : Buffer) : (overlay b t).length = b.length := by
  induction b generalizing t with
  | nil => cases t <;> rfl
  | cons s rest ih => cases t <;> simp [overlay, ih]

@[simp] theorem length_silent (d : Nat) : (silent d).length = d := by
  simp [silent]

@[simp] theorem length_apply_fade (b : Buffer) (fi fo : Nat) :
    (apply_fade b fi fo).length = b.length := by
  simp [apply_fade]

theorem pyIdx_ofNat (n k : Nat) : pyIdx n (k : Int) = min k n := by
  simp [pyIdx]

theorem pyIdx_neg (n k : Nat) (h0 : 0 < k) : pyIdx n (-(k : Int)) = n - k := by
  simp only [pyIdx]
  rw [if_pos (by omega)]
  omega

theorem pySlice_take_length (b : Buffer) (k : Nat) :
    (pySlice b none (some (k : Int))).length = min k b.length := by
  simp [pySlice, pyIdx_ofNat]

theorem pySlice_drop_length (b : Buffer) (k : Nat) :
    (pySlice b (some (k : Int)) none).length = b.length - k := by
  simp [pySlice, pyIdx_ofNat]
  omega

theorem pySlice_last_length (b : Buffer) (k : Nat) (h0 : 0 < k) (hk : k ≤ b.length) :
    (pySlice b (some (-(k : Int))) none).length = k := by
  simp [pySlice, pyIdx_neg _ _ h0]
  omega


theorem pySlice_init_length (b : Buffer) (k : Nat) (h0 : 0 < k) :
    (pySlice b none (some (-(k : Int)))).length = b.length - k := by
  simp [pySlice, pyIdx_neg _ _ h0]

theorem pySlice_mid_length (b : Buffer) (k : Nat) (h0 : 0 < k) (hk : 2 * k ≤ b.length) :
    (pySlice b (some (k : Int)) (some (-(k : Int)))).length = b.length - 2 * k := by
  simp [pySlice, pyIdx_ofNat, pyIdx_neg _ _ h0]
  omega

/-! ## Claims about the ducking mixer -/

/-- C2: for every voice buffer and music source, when edge-only ducking is
applied with overlap = min(duck_fade + voice_fade, L/3) at least 100 ms, the
output (transition_in, voice middle, transition_out) has duration exactly
the voice duration: the operation re-composes the voice's own span. -/
theorem C2_edge_duck_preserves_duration (voice music_source : Buffer) (duck_db : Int)
    (duck_fade voice_fade : Nat)
    (h : 100 ≤ min (duck_fade + voice_fade) (voice.length / 3)) :
    duration (RadioStationGui.create_ducked_segment voice_fade voice music_source duck_db duck_fade)
      = duration voice := by
  simp only [RadioStationGui.create_ducked_segment, duration, List.length_append,
    length_overlay, length_fade_out, length_fade_in, length_apply_gain, length_silent,
    pySlice, pyIdx, List.length_take, List.length_drop]
  split_ifs <;>
    simp only [List.length_append, length_overlay, length_fade_out, length_fade_in,
      length_apply_gain, length_silent, List.length_take, List.length_drop] <;>
    omega

/-- C2 witness: a 300 ms voice with duck_fade 60 and voice_fade 40 gives
overlap exactly 100 and the ducked segment keeps duration 300, with a music
source shorter than the overlap (padding path). -/
theorem C2_edge_duck_preserves_duration_witness :
    100 ≤ min (60 + 40) ((silent 300 : Buffer).length / 3)
    ∧ duration (RadioStationGui.create_ducked_segment 40 (silent 300) (silent 50) (-12) 60)
        = duration (silent 300) :=
  ⟨by decide, C2_edge_duck_preserves_duration (silent 300) (silent 50) (-12) 60 40 (by decide)⟩

/-- C8: when overlap = min(duck_fade + voice_fade, L/3) falls below 100 ms,
edge-only ducking is skipped entirely and the returned buffer is the input
voice buffer unchanged. -/
theorem C8_short_overlap_noop (voice music_source : Buffer) (duck_db : Int)
    (duck_fade voice_fade : Nat)
    (h : min (duck_fade + voice_fade) (voice.length / 3) < 100) :
    RadioStationGui.create_ducked_segment voice_fade voice music_source duck_db duck_fade = voice := by
  simp [RadioStationGui.create_ducked_segment, h]

/-- C8 witness: a 150 ms voice with duck_fade 20 and voice_fade 10 gives
overlap 30 < 100, and the ducked segment is exactly the input voice. -/
theorem C8_short_overlap_noop_witness :
    min (20 + 10) ((silent 150 : Buffer).length / 3) < 100
    ∧ RadioStationGui.create_ducked_segment 10 (silent 150) (silent 400) (-12) 20 = silent 150 :=
  ⟨by decide, C8_short_overlap_noop (silent 150) (silent 400) (-12) 20 10 (by decide)⟩

/-! ## Claim about the freshness gate -/

/-- C9: the freshness gate computes each age as (now - mtime) in minutes, a
segment is stale exactly when its age strictly exceeds max_age_minutes (an
age equal to the limit is fresh), all_fresh holds exactly when the stale
list is empty, and the concrete instance mtime = now - 10 minutes with
max_age_minutes = 5 yields all_fresh = false with the segment listed at age
10.0. -/
theorem C9_freshness_gate :
    (∀ (max_age now : ℚ) (segs : List (String × ℚ)),
      ((check_files_freshness max_age now segs).1 = true
        ↔ (check_files_freshness max_age now segs).2 = []))
    ∧ (∀ (max_age now : ℚ) (segs : List (String × ℚ)),
      (check_files_freshness max_age now segs).2
        = (segs.filter (fun s => decide (max_age < (now - s.2) / 60))).map
            (fun s => (s.1, round1 ((now - s.2) / 60))))
    ∧ check_files_freshness 5 0 [("001_intro", -600)] = (false, [("001_intro", 10)]) := by
  refine ⟨?_, ?_, ?conc⟩
  case conc =>
    have hage : ((0 : ℚ) - (-600)) / 60 = 10 := by norm_num
    have hfl : ⌊(10 : ℚ) * 10⌋ = (100 : ℤ) := by norm_num
    simp only [check_files_freshness, staleScan, hage]
    rw [if_pos (by norm_num)]
    simp only [round1, roundHalfEven, hfl]
    norm_num
  · intro max_age now segs
    simp [check_files_freshness]
  · intro max_age now segs
    induction segs with
    | nil => rfl
    | cons s rest ih =>
      obtain ⟨name, mt⟩ := s
      by_cases hc : max_age < (now - mt) / 60
      · simp [check_files_freshness, staleScan, hc] at ih ⊢
        exact ih
      · simp [check_files_freshness, staleScan, hc] at ih ⊢
        exact ih

/-! ## Claim about the auto-build debounce -/

/-- C7: a file event arriving before the pending debounce deadline cancels
the outstanding timer (no readiness evaluation fires) and reschedules the
deadline to now + delay; consequently a burst of three rapid events inside
the debounce window produces exactly one timer firing, hence one readiness
evaluation and at most one transition into Building. -/
theorem C7_debounce_coalesces :
    (∀ (delay t d : Nat) (st : WatchState), st.deadline = some d → t < d →
      deliverEvent delay st t = { deadline := some (t + delay), checks := st.checks })
    ∧ (∀ delay t1 t2 t3 : Nat, t1 ≤ t2 → t2 < t1 + delay → t2 ≤ t3 → t3 < t2 + delay →
      (run_watch delay [t1, t2, t3]).checks = 1) := by
  constructor
  · intro delay t d st hd ht
    simp [deliverEvent, on_segment_change, hd, show ¬ d ≤ t by omega]
  · intro delay t1 t2 t3 h12 h2w h23 h3w
    have e1 : deliverEvent delay { deadline := none, checks := 0 } t1
        = { deadline := some (t1 + delay), checks := 0 } := rfl
    have e2 : deliverEvent delay { deadline := some (t1 + delay), checks := 0 } t2
        = { deadline := some (t2 + delay), checks := 0 } := by
      simp [deliverEvent, on_segment_change, show ¬ t1 + delay ≤ t2 by omega]
    have e3 : deliverEvent delay { deadline := some (t2 + delay), checks := 0 } t3
        = { deadline := some (t3 + delay), checks := 0 } := by
      simp [deliverEvent, on_segment_change, show ¬ t2 + delay ≤ t3 by omega]
    simp [run_watch, e1, e2, e3]

/-- C7 witness: with delay 5, the reschedule equation at a pending deadline
7 and an event at time 1, and the burst 0, 1, 2 firing exactly once. -/
theorem C7_debounce_coalesces_witness :
    deliverEvent 5 { deadline := some 7, checks := 0 } 1 = { deadline := some 6, checks := 0 }
    ∧ (run_watch 5 [0, 1, 2]).checks = 1 :=
  ⟨C7_debounce_coalesces.1 5 1 7 { deadline := some 7, checks := 0 } rfl (by omega),
   C7_debounce_coalesces.2 5 0 1 2 (by omega) (by omega) (by omega) (by omega)⟩

/-! ## Claim about the asset resolver -/

/-- The example voice folder of the claim: only 001_intro.mp3 exists. -/
def exampleFolder : List FileName := [{ stem := "001_intro", ext := ".mp3" }]

/-- The example identifier order of the claim. -/
def exampleOrder : List String := ["001_intro", "002_weather"]

/-- C6 counterexample: the source resolver does not return a (found,
missing) pair.  On the claim's own example it returns the single found
list, and the unmatched identifier 002_weather is recorded nowhere in the
returned value; the spec-worded resolver would have reported it as
missing. -/
theorem C6_counterexample :
    get_voice_segments exampleOrder exampleFolder
      = [("001_intro", { stem := "001_intro", ext := ".mp3" })]
    ∧ "002_weather" ∉ (get_voice_segments exampleOrder exampleFolder).map Prod.fst
    ∧ (resolve_segments_spec exampleOrder exampleFolder).2 = ["002_weather"] := by
  refine ⟨by decide, by decide, by decide⟩

/-- C6 amended: segment resolution returns only the found list; an
identifier with no case-insensitive prefix match is skipped without an
exception and without being recorded (the found list is exactly the found
component of the spec-worded resolver), and on the example the result is
the resolved 001_intro alone. -/
theorem C6_resolver_drops_missing :
    (∀ (order : List String) (files : List FileName),
      get_voice_segments order files = (resolve_segments_spec order files).1)
    ∧ (∀ (order : List String) (files : List FileName) (ident : String),
      files.find? (fun f => matches_ident ident f) = none →
      ident ∉ (get_voice_segments order files).map Prod.fst)
    ∧ get_voice_segments exampleOrder exampleFolder
        = [("001_intro", { stem := "001_intro", ext := ".mp3" })] := by
  refine ⟨?_, ?_, by decide⟩
  · intro order files
    induction order with
    | nil => rfl
    | cons ident rest ih =>
      simp only [get_voice_segments, resolve_segments_spec]
      cases h : files.find? (fun f => matches_ident ident f) <;> simp [h, ih]
  · intro order files ident hnone
    induction order with
    | nil => simp [get_voice_segments]
    | cons i rest ih =>
      simp only [get_voice_segments]
      cases h : files.find? (fun f => matches_ident i f) with
      | none => simpa using ih
      | some f =>
        simp only [List.map_cons, List.mem_cons]
        rintro (rfl | hmem)
        · rw [hnone] at h
          exact Option.noConfusion h
        · exact ih hmem

/-- C6 witness: the general facts applied to the claim's example, where
002_weather has no match. -/
theorem C6_resolver_drops_missing_witness :
    get_voice_segments exampleOrder exampleFolder
      = (resolve_segments_spec exampleOrder exampleFolder).1
    ∧ "002_weather" ∉ (get_voice_segments exampleOrder exampleFolder).map Prod.fst :=
  ⟨C6_resolver_drops_missing.1 exampleOrder exampleFolder,
   C6_resolver_drops_missing.2.1 exampleOrder exampleFolder "002_weather" (by decide)⟩

/-! ## Claim about the crossfade joins -/

/-- C1 counterexample: appending a 500 ms buffer to a 3000 ms buffer with
crossfade_ms = 4000 is not clamped: the primitive join raises the
out-of-range ValueError, and a GUI build performing that very join (a 500 ms
song block appended to a 3000 ms show) aborts with that error instead of
clamping. -/
theorem C1_counterexample :
    appendCrossfade (silent 3000) (silent 500) 4000
      = Except.error "Crossfade is longer than the original AudioSegment"
    ∧ RadioStationGui.build_show cfgC1 (fun l => l) dec500 1
        [("001_intro", silent 3000)] ["songA"]
      = some (Except.error "Crossfade is longer than the original AudioSegment") := by
  have hi : is_intro "001_intro" = true := by decide
  have happ : appendCrossfade (silent 3000) (silent 500) 4000
      = Except.error "Crossfade is longer than the original AudioSegment" := by
    unfold appendCrossfade
    rw [if_neg (by norm_num), if_pos (by simp)]
  have happ2 : appendCrossfade (fade_out 0 (fade_in 0 (silent 3000)))
      (fade_out 0 (fade_in 0 (silent 500))) 4000
      = Except.error "Crossfade is longer than the original AudioSegment" := by
    unfold appendCrossfade
    rw [if_neg (by norm_num), if_pos (by simp)]
  refine ⟨happ, ?_⟩
  simp [RadioStationGui.build_show, RadioStationGui.build_show_go,
    RadioStationGui.process_segment, RadioStationGui.step_intro,
    RadioStationGui.add_song_block, RadioStationGui.create_song_block_with_tracking,
    RadioStationGui.song_block_loop, RadioStationGui.withEvents, cfgC1, dec500, hi, happ2]

/-- C1 amended: no join clamps the crossfade.  The configured crossfade is
used as-is: a nonzero crossfade exceeding the shorter buffer makes the join
raise an out-of-range error, while a crossfade no longer than both buffers
joins them into a buffer of duration a + b - crossfade. -/
theorem C1_crossfade_not_clamped (a b : Buffer) (cf : Nat) :
    (0 < cf → min a.length b.length < cf →
      ∃ e, appendCrossfade a b cf = Except.error e)
    ∧ (cf ≤ min a.length b.length →
      ∃ c, appendCrossfade a b cf = Except.ok c ∧ c.length = a.length + b.length - cf) := by
  constructor
  · intro hpos hlt
    unfold appendCrossfade
    rw [if_neg (by omega)]
    rcases Nat.lt_or_ge a.length cf with hA | hA
    · exact ⟨"Crossfade is longer than the original AudioSegment", by rw [if_pos hA]⟩
    · refine ⟨"Crossfade is longer than the appended AudioSegment", ?_⟩
      rw [if_neg (by omega), if_pos (by omega)]
  · intro hle
    unfold appendCrossfade
    by_cases h0 : cf = 0
    · subst h0
      exact ⟨a ++ b, by simp⟩
    · rw [if_neg h0, if_neg (by omega), if_neg (by omega)]
      refine ⟨_, rfl, ?_⟩
      simp only [List.length_append, length_overlay, length_fade_out]
      rw [pySlice_init_length a cf (by omega), pySlice_last_length a cf (by omega) (by omega),
        pySlice_drop_length b cf]
      omega

/-- C1 witness: the amended behaviour at concrete joins, a 15 ms crossfade
over a 10 ms original raising, and a 5 ms crossfade joining 10 ms and 20 ms
into 25 ms. -/
theorem C1_crossfade_not_clamped_witness :
    (∃ e, appendCrossfade (silent 10) (silent 20) 15 = Except.error e)
    ∧ (∃ c, appendCrossfade (silent 10) (silent 20) 5 = Except.ok c
        ∧ c.length = (silent 10 : Buffer).length + (silent 20 : Buffer).length - 5) :=
  ⟨(C1_crossfade_not_clamped (silent 10) (silent 20) 15).1 (by omega) (by decide),
   (C1_crossfade_not_clamped (silent 10) (silent 20) 5).2 (by decide)⟩

/-! ## Claims about the song-block loops -/

/-- Helper for C3: with a pool of one song that always fails to decode and a
requested count of one, the GUI song-block loop never finishes, whatever the
fuel: songs_added is never incremented and the loop retries forever. -/
theorem gui_block_loop_decFail (fuel idx : Nat) :
    RadioStationGui.song_block_loop_nt (fun l => l) decFail 0 0 1 fuel ["s1"] idx none 0 = none := by
  induction fuel generalizing idx with
  | zero => simp [RadioStationGui.song_block_loop_nt]
  | succ fuel ih =>
    rcases Nat.lt_or_ge idx 1 with h | h
    · have h0 : idx = 0 := by omega
      subst h0
      simp only [RadioStationGui.song_block_loop_nt, decFail]
      simpa using ih 1
    · simp only [RadioStationGui.song_block_loop_nt, decFail]
      simp only [List.length_cons, List.length_nil, show (0 + 1 : Nat) = 1 from rfl, h]
      simpa [h] using ih 1

/-- C3: building a song block does not always terminate.  In the GUI
create_song_block, a song that fails to decode is skipped without
incrementing songs_added, but the retries are unbounded: with a pool whose
every song fails to decode, the loop never returns however much fuel it is
given (the Python loop hangs forever).  The CLI create_song_block implements
the bounded behaviour the claim describes: at the same failing input it
terminates and returns the accumulated block, here the short silence
buffer. -/
theorem C3_gui_block_unbounded_retry :
    (∀ fuel : Nat,
      RadioStationGui.create_song_block (fun l => l) decFail 0 0 ["s1"] 1 0 fuel = none)
    ∧ BuildRadioShow.create_song_block decFail cfgTinyCli ["s1"] 1 0 = (silent 1000, 1) := by
  constructor
  · intro fuel
    simp only [RadioStationGui.create_song_block]
    rw [if_neg (by simp)]
    exact gui_block_loop_decFail fuel 0
  · simp [BuildRadioShow.create_song_block, BuildRadioShow.song_block_loop1,
      BuildRadioShow.song_block_loop2, decFail, cfgTinyCli]

/-- C5 counterexample: the CLI song cursor (build_radio_show.py lines
119-124) wraps around with modulo indexing and no reshuffle: pulling four
songs from the pool [a, b] consumes a, b, a, b — the second lap repeats the
first lap's order exactly instead of using a fresh order. -/
theorem C5_counterexample :
    BuildRadioShow.create_song_block decSrc cfgTinyCli4 ["a", "b"] 4 0
      = ([Sample.src "a" 0, Sample.src "b" 0, Sample.src "a" 0, Sample.src "b" 0], 2) := by
  simp [BuildRadioShow.create_song_block, BuildRadioShow.song_block_loop1,
    BuildRadioShow.song_block_loop2, decSrc, cfgTinyCli4, apply_fade, fade_in, fade_out,
    fadeInFrom, fadeOutFrom, appendCrossfade]

/-- C5 amended: the GUI cursor reshuffles the list and resets the index to
0 when the index has exhausted the list, before returning the next item,
and next() never raises (for any length-preserving shuffle the IndexError
branch is unreachable, whatever the fuel); the CLI cursor also never
raises but wraps by modulo indexing without reshuffling, so a lap repeats
the previous order.  The concrete GUI run with pool [a, b], count 4 and
reversal as the shuffle consumes a, b and then b, a: the reshuffle happens
exactly at wraparound. -/
theorem C5_cursor_wraparound (shuffle : List String → List String)
    (decode : String → Option Buffer) (fade cf count : Nat)
    (hlen : ∀ l, (shuffle l).length = l.length) :
    (∀ (fuel : Nat) (songs : List String) (idx : Nat) (block last : Option Buffer)
        (added : Nat) (e : String), songs ≠ [] →
      RadioStationGui.song_block_loop shuffle decode fade cf count fuel songs idx block last added
        ≠ some (Except.error e))
    ∧ RadioStationGui.create_song_block_with_tracking List.reverse decSrc 0 0 ["a", "b"] 4 0 4
        = some (Except.ok ([Sample.src "a" 0, Sample.src "b" 0, Sample.src "b" 0, Sample.src "a" 0],
            ["b", "a"], 2, some [Sample.src "a" 0])) := by
  constructor
  · intro fuel
    induction fuel with
    | zero =>
      intro songs idx block last added e hne
      by_cases hc : count ≤ added <;> simp [RadioStationGui.song_block_loop, hc]
    | succ fuel ih =>
      intro songs idx block last added e hne
      by_cases hc : count ≤ added
      · simp [RadioStationGui.song_block_loop, hc]
      · have h1 : songs.length ≠ 0 := by simpa [List.length_eq_zero] using hne
        have hne2 : (if songs.length ≤ idx then shuffle songs else songs) ≠ [] := by
          split
          · intro h0
            apply h1
            have h2 := hlen songs
            rw [h0] at h2
            simpa using h2.symm
          · exact hne
        have hlt : (if songs.length ≤ idx then 0 else idx)
            < (if songs.length ≤ idx then shuffle songs else songs).length := by
          by_cases hw : songs.length ≤ idx
          · simp only [hw, if_true, hlen]
            omega
          · simp only [hw, if_false]
            omega
        obtain ⟨p, hp⟩ : ∃ p,
            (if songs.length ≤ idx then shuffle songs else songs)[(if songs.length ≤ idx then 0 else idx)]?
              = some p :=
          ⟨_, List.getElem?_eq_getElem hlt⟩
        simp only [RadioStationGui.song_block_loop, if_neg hc, hp]
        cases hdec : decode p with
        | none =>
          simp only [hdec]
          exact ih _ _ _ _ _ e hne2
        | some s0 =>
          simp only [hdec]
          cases block with
          | none => exact ih _ _ _ _ _ e hne2
          | some b =>
            cases happ : appendCrossfade b (fade_out fade (fade_in fade s0)) cf with
            | error e2 =>
              simp only [happ]
              exact ih _ _ _ _ _ e hne2
            | ok b2 =>
              simp only [happ]
              exact ih _ _ _ _ _ e hne2
  · decide

/-- C5 witness: the no-raise fact applied with the reversing shuffle at a
wrapped-around index. -/
theorem C5_cursor_wraparound_witness :
    RadioStationGui.song_block_loop List.reverse decSrc 0 0 4 9 ["a", "b"] 5 none none 0
      ≠ some (Except.error "IndexError: list index out of range") :=
  (C5_cursor_wraparound List.reverse decSrc 0 0 4 (fun l => List.length_reverse l)).1
    9 ["a", "b"] 5 none none 0 "IndexError: list index out of range" (by decide)

/-! ## Inversion lemmas for the two timeline assemblers -/

theorem withEvents_ok {pre : List RadioStationGui.BuildEvent}
    {r : Option (Except String (RadioStationGui.GuiState × List RadioStationGui.BuildEvent))}
    {st2 : RadioStationGui.GuiState} {chunk : List RadioStationGui.BuildEvent}
    (h : RadioStationGui.withEvents pre r = some (Except.ok (st2, chunk))) :
    ∃ evs, r = some (Except.ok (st2, evs)) ∧ chunk = pre ++ evs := by
  match r with
  | none => simp [RadioStationGui.withEvents] at h
  | some (Except.error e) => simp [RadioStationGui.withEvents] at h
  | some (Except.ok (st', evs)) =>
    simp only [RadioStationGui.withEvents, Option.some.injEq, Except.ok.injEq,
      Prod.mk.injEq] at h
    exact ⟨evs, by rw [h.1], h.2.symm⟩

theorem add_song_block_ok_events {cfg : RadioStationGui.GuiCfg}
    {shuffle : List String → List String} {decode : String → Option Buffer} {fuel : Nat}
    {st st2 : RadioStationGui.GuiState} {f1 : Buffer} {evs : List RadioStationGui.BuildEvent}
    (h : RadioStationGui.add_song_block cfg shuffle decode fuel st f1
      = some (Except.ok (st2, evs))) :
    evs = [RadioStationGui.BuildEvent.songBlock] := by
  unfold RadioStationGui.add_song_block at h
  cases hb : RadioStationGui.create_song_block_with_tracking shuffle decode cfg.song_fade
      cfg.crossfade st.songs cfg.songs_between st.song_index fuel with
  | none => simp [hb] at h
  | some r =>
    cases r with
    | error e => simp [hb] at h
    | ok q =>
      obtain ⟨blk, songs2, idx2, last2⟩ := q
      simp only [hb] at h
      cases ha : appendCrossfade f1 blk cfg.crossfade with
      | error e => simp [ha] at h
      | ok f2 =>
        simp only [ha, Option.some.injEq, Except.ok.injEq, Prod.mk.injEq] at h
        exact h.2.symm

theorem step_intro_ok_events {cfg : RadioStationGui.GuiCfg}
    {shuffle : List String → List String} {decode : String → Option Buffer} {fuel : Nat}
    {st st2 : RadioStationGui.GuiState} {voice : Buffer} {evs : List RadioStationGui.BuildEvent}
    (h : RadioStationGui.step_intro cfg shuffle decode fuel st voice
      = some (Except.ok (st2, evs))) :
    evs = [RadioStationGui.BuildEvent.songBlock] := by
  unfold RadioStationGui.step_intro at h
  cases hf : st.final with
  | none =>
    simp only [hf] at h
    exact add_song_block_ok_events h
  | some f =>
    simp only [hf] at h
    cases ha : appendCrossfade f voice cfg.crossfade with
    | error e => simp [ha] at h
    | ok f1 =>
      simp only [ha] at h
      exact add_song_block_ok_events h

theorem step_middle_ok_events {cfg : RadioStationGui.GuiCfg}
    {shuffle : List String → List String} {decode : String → Option Buffer} {fuel : Nat}
    {st st2 : RadioStationGui.GuiState} {voice : Buffer} {evs : List RadioStationGui.BuildEvent}
    (h : RadioStationGui.step_middle cfg shuffle decode fuel st voice
      = some (Except.ok (st2, evs))) :
    evs = [RadioStationGui.BuildEvent.songBlock] := by
  unfold RadioStationGui.step_middle at h
  cases hf : st.final with
  | none => simp [hf] at h
  | some f =>
    simp only [hf] at h
    cases ha : appendCrossfade f voice cfg.crossfade with
    | error e => simp [ha] at h
    | ok f1 =>
      simp only [ha] at h
      exact add_song_block_ok_events h

theorem step_outro_ok_events {cfg : RadioStationGui.GuiCfg}
    {st st2 : RadioStationGui.GuiState} {voice : Buffer} {evs : List RadioStationGui.BuildEvent}
    (h : RadioStationGui.step_outro cfg st voice = Except.ok (st2, evs)) :
    evs = [] := by
  unfold RadioStationGui.step_outro at h
  cases hf : st.final with
  | none => simp [hf] at h
  | some f =>
    simp only [hf] at h
    cases ha : appendCrossfade f voice cfg.crossfade with
    | error e => simp [ha] at h
    | ok f1 =>
      simp only [ha, Except.ok.injEq, Prod.mk.injEq] at h
      exact h.2.symm

theorem build_show_go_nil_ok {cfg : RadioStationGui.GuiCfg}
    {shuffle : List String → List String} {decode : String → Option Buffer} {fuel : Nat}
    {st : RadioStationGui.GuiState} {buf : Buffer} {tr : List RadioStationGui.BuildEvent}
    (h : RadioStationGui.build_show_go cfg shuffle decode fuel [] st
      = some (Except.ok (buf, tr))) :
    tr = [] := by
  unfold RadioStationGui.build_show_go at h
  split at h <;> simp_all

theorem build_show_go_cons_ok {cfg : RadioStationGui.GuiCfg}
    {shuffle : List String → List String} {decode : String → Option Buffer} {fuel : Nat}
    {name : String} {v0 : Buffer} {rest : List (String × Buffer)}
    {st : RadioStationGui.GuiState} {buf : Buffer} {tr : List RadioStationGui.BuildEvent}
    (h : RadioStationGui.build_show_go cfg shuffle decode fuel ((name, v0) :: rest) st
      = some (Except.ok (buf, tr))) :
    ∃ st2 chunk tr2,
      RadioStationGui.process_segment cfg shuffle decode fuel st name v0
        = some (Except.ok (st2, chunk))
      ∧ RadioStationGui.build_show_go cfg shuffle decode fuel rest st2
        = some (Except.ok (buf, tr2))
      ∧ tr = chunk ++ tr2 := by
  unfold RadioStationGui.build_show_go at h
  cases hp : RadioStationGui.process_segment cfg shuffle decode fuel st name v0 with
  | none => simp [hp] at h
  | some r =>
    cases r with
    | error e => simp [hp] at h
    | ok pr =>
      obtain ⟨st2, chunk⟩ := pr
      simp only [hp] at h
      cases hg : RadioStationGui.build_show_go cfg shuffle decode fuel rest st2 with
      | none => simp [hg] at h
      | some r2 =>
        cases r2 with
        | error e => simp [hg] at h
        | ok pr2 =>
          obtain ⟨buf2, tr2⟩ := pr2
          simp only [hg, Option.some.injEq, Except.ok.injEq, Prod.mk.injEq] at h
          obtain ⟨hb, ht⟩ := h
          subst hb
          exact ⟨st2, chunk, tr2, rfl, hg, ht.symm⟩

theorem cli_go_nil_ok {decode : String → Option Buffer} {cfg : BuildRadioShow.CliCfg}
    {songs : List String} {idx : Nat} {final : Option Buffer} {buf : Buffer}
    {tr : List RadioStationGui.BuildEvent}
    (h : BuildRadioShow.build_radio_show_go decode cfg [] songs idx final
      = Except.ok (buf, tr)) :
    tr = [] := by
  unfold BuildRadioShow.build_radio_show_go at h
  cases hf : final with
  | none => simp [hf] at h
  | some f =>
    simp only [hf, Except.ok.injEq, Prod.mk.injEq] at h
    exact h.2.symm

theorem cli_go_intro_ok {decode : String → Option Buffer} {cfg : BuildRadioShow.CliCfg}
    {name : String} {v0 : Buffer} {rest : List (String × Buffer)} {songs : List String}
    {idx : Nat} {final : Option Buffer} {buf : Buffer} {tr : List RadioStationGui.BuildEvent}
    (hi : is_intro name = true)
    (h : BuildRadioShow.build_radio_show_go decode cfg ((name, v0) :: rest) songs idx final
      = Except.ok (buf, tr)) :
    ∃ idx2 f2 tr2,
      BuildRadioShow.build_radio_show_go decode cfg rest songs idx2 (some f2)
        = Except.ok (buf, tr2)
      ∧ tr = RadioStationGui.BuildEvent.seg name :: RadioStationGui.BuildEvent.songBlock :: tr2 := by
  simp only [BuildRadioShow.build_radio_show_go, hi, if_true] at h
  cases hf : final with
  | none =>
    simp only [hf] at h
    cases ha : appendCrossfade
        (apply_fade v0 cfg.voice_fade_in cfg.voice_fade_out)
        (BuildRadioShow.create_song_block decode cfg songs cfg.songs_between idx).1
        cfg.crossfade with
    | error e => simp [ha] at h
    | ok f2 =>
      simp only [ha] at h
      cases hr : BuildRadioShow.build_radio_show_go decode cfg rest songs
          (BuildRadioShow.create_song_block decode cfg songs cfg.songs_between idx).2 (some f2) with
      | error e => simp [hr] at h
      | ok p =>
        obtain ⟨buf2, tr2⟩ := p
        simp only [hr, Except.ok.injEq, Prod.mk.injEq] at h
        obtain ⟨hb, ht⟩ := h
        subst hb
        exact ⟨_, f2, tr2, hr, ht.symm⟩
  | some f =>
    simp only [hf] at h
    cases hv : appendCrossfade f (apply_fade v0 cfg.voice_fade_in cfg.voice_fade_out)
        cfg.crossfade with
    | error e => simp [hv] at h
    | ok f1 =>
      simp only [hv] at h
      cases ha : appendCrossfade f1
          (BuildRadioShow.create_song_block decode cfg songs cfg.songs_between idx).1
          cfg.crossfade with
      | error e => simp [ha] at h
      | ok f2 =>
        simp only [ha] at h
        cases hr : BuildRadioShow.build_radio_show_go decode cfg rest songs
            (BuildRadioShow.create_song_block decode cfg songs cfg.songs_between idx).2 (some f2) with
        | error e => simp [hr] at h
        | ok p =>
          obtain ⟨buf2, tr2⟩ := p
          simp only [hr, Except.ok.injEq, Prod.mk.injEq] at h
          obtain ⟨hb, ht⟩ := h
          subst hb
          exact ⟨_, f2, tr2, hr, ht.symm⟩

theorem cli_go_outro_ok {decode : String → Option Buffer} {cfg : BuildRadioShow.CliCfg}
    {name : String} {v0 : Buffer} {rest : List (String × Buffer)} {songs : List String}
    {idx : Nat} {final : Option Buffer} {buf : Buffer} {tr : List RadioStationGui.BuildEvent}
    (hi : is_intro name = false) (ho : is_outro name = true)
    (h : BuildRadioShow.build_radio_show_go decode cfg ((name, v0) :: rest) songs idx final
      = Except.ok (buf, tr)) :
    ∃ f1 tr2,
      BuildRadioShow.build_radio_show_go decode cfg rest songs idx (some f1)
        = Except.ok (buf, tr2)
      ∧ tr = RadioStationGui.BuildEvent.seg name :: tr2 := by
  rw [BuildRadioShow.build_radio_show_go.eq_def] at h
  simp only [hi, ho, Bool.false_eq_true, if_true, if_false, eq_self_iff_true] at h
  cases hf : final with
  | none => simp [hf] at h
  | some f =>
    simp only [hf] at h
    cases hv : appendCrossfade f (apply_fade v0 cfg.voice_fade_in cfg.voice_fade_out)
        cfg.crossfade with
    | error e => simp [hv] at h
    | ok f1 =>
      simp only [hv] at h
      cases hr : BuildRadioShow.build_radio_show_go decode cfg rest songs idx (some f1) with
      | error e => simp [hr] at h
      | ok p =>
        obtain ⟨buf2, tr2⟩ := p
        simp only [hr, Except.ok.injEq, Prod.mk.injEq] at h
        obtain ⟨hb, ht⟩ := h
        subst hb
        exact ⟨f1, tr2, hr, ht.symm⟩

theorem cli_go_middle_before_outro_ok {decode : String → Option Buffer}
    {cfg : BuildRadioShow.CliCfg} {name n2 : String} {v0 v2 : Buffer}
    {rest2 : List (String × Buffer)} {songs : List String} {idx : Nat}
    {final : Option Buffer} {buf : Buffer} {tr : List RadioStationGui.BuildEvent}
    (hi : is_intro name = false) (ho : is_outro name = false) (h2 : is_outro n2 = true)
    (h : BuildRadioShow.build_radio_show_go decode cfg ((name, v0) :: (n2, v2) :: rest2)
        songs idx final = Except.ok (buf, tr)) :
    ∃ f1 tr2,
      BuildRadioShow.build_radio_show_go decode cfg ((n2, v2) :: rest2) songs idx (some f1)
        = Except.ok (buf, tr2)
      ∧ tr = RadioStationGui.BuildEvent.seg name :: tr2 := by
  rw [BuildRadioShow.build_radio_show_go.eq_def] at h
  simp only [hi, ho, h2, Bool.false_eq_true, if_true, if_false, eq_self_iff_true] at h
  cases hf : final with
  | none => simp [hf] at h
  | some f =>
    simp only [hf] at h
    cases hv : appendCrossfade f (apply_fade v0 cfg.voice_fade_in cfg.voice_fade_out)
        cfg.crossfade with
    | error e => simp [hv] at h
    | ok f1 =>
      simp only [hv] at h
      cases hr : BuildRadioShow.build_radio_show_go decode cfg ((n2, v2) :: rest2) songs idx
          (some f1) with
      | error e => simp [hr] at h
      | ok p =>
        obtain ⟨buf2, tr2⟩ := p
        simp only [hr, Except.ok.injEq, Prod.mk.injEq] at h
        obtain ⟨hb, ht⟩ := h
        subst hb
        exact ⟨f1, tr2, hr, ht.symm⟩

theorem process_segment_intro_chunk {cfg : RadioStationGui.GuiCfg}
    {shuffle : List String → List String} {decode : String → Option Buffer} {fuel : Nat}
    {st st2 : RadioStationGui.GuiState} {name : String} {v0 : Buffer}
    {chunk : List RadioStationGui.BuildEvent} (hi : is_intro name = true)
    (h : RadioStationGui.process_segment cfg shuffle decode fuel st name v0
      = some (Except.ok (st2, chunk))) :
    chunk = [RadioStationGui.BuildEvent.seg name, RadioStationGui.BuildEvent.songBlock] := by
  simp only [RadioStationGui.process_segment, hi, Bool.not_true, Bool.and_false,
    if_false, if_true] at h
  obtain ⟨evs, hr, hchunk⟩ := withEvents_ok h
  rw [hchunk, step_intro_ok_events hr]
  rfl

theorem process_segment_middle_chunk {cfg : RadioStationGui.GuiCfg}
    {shuffle : List String → List String} {decode : String → Option Buffer} {fuel : Nat}
    {st st2 : RadioStationGui.GuiState} {name : String} {v0 : Buffer}
    {chunk : List RadioStationGui.BuildEvent}
    (hi : is_intro name = false) (ho : is_outro name = false)
    (h : RadioStationGui.process_segment cfg shuffle decode fuel st name v0
      = some (Except.ok (st2, chunk))) :
    ∃ d, chunk = RadioStationGui.BuildEvent.seg name :: (d ++ [RadioStationGui.BuildEvent.songBlock])
      ∧ (d = [] ∨ d = [RadioStationGui.BuildEvent.duck name]) := by
  simp only [RadioStationGui.process_segment, hi, ho, Bool.not_false, Bool.and_true,
    if_false] at h
  cases hd : cfg.ducking_enabled && st.last_song.isSome with
  | true =>
    simp only [hd, if_true] at h
    obtain ⟨evs, hr, hchunk⟩ := withEvents_ok h
    refine ⟨[RadioStationGui.BuildEvent.duck name], ?_, Or.inr rfl⟩
    rw [hchunk, step_middle_ok_events hr]
    rfl
  | false =>
    simp only [hd, if_false] at h
    obtain ⟨evs, hr, hchunk⟩ := withEvents_ok h
    refine ⟨[], ?_, Or.inl rfl⟩
    rw [hchunk, step_middle_ok_events hr]
    rfl

theorem process_segment_outro_chunk {cfg : RadioStationGui.GuiCfg}
    {shuffle : List String → List String} {decode : String → Option Buffer} {fuel : Nat}
    {st st2 : RadioStationGui.GuiState} {name : String} {v0 : Buffer}
    {chunk : List RadioStationGui.BuildEvent}
    (hi : is_intro name = false) (ho : is_outro name = true)
    (h : RadioStationGui.process_segment cfg shuffle decode fuel st name v0
      = some (Except.ok (st2, chunk))) :
    ∃ d, chunk = RadioStationGui.BuildEvent.seg name :: d
      ∧ (d = [] ∨ d = [RadioStationGui.BuildEvent.duck name]) := by
  simp only [RadioStationGui.process_segment, hi, ho, Bool.not_false, Bool.and_true,
    if_false, if_true] at h
  cases hd : cfg.ducking_enabled && st.last_song.isSome with
  | true =>
    simp only [hd, if_true] at h
    obtain ⟨evs, hr, hchunk⟩ := withEvents_ok h
    rw [Option.some.injEq] at hr
    refine ⟨[RadioStationGui.BuildEvent.duck name], ?_, Or.inr rfl⟩
    rw [hchunk, step_outro_ok_events hr]
    rfl
  | false =>
    simp only [hd, if_false] at h
    obtain ⟨evs, hr, hchunk⟩ := withEvents_ok h
    rw [Option.some.injEq] at hr
    refine ⟨[], ?_, Or.inl rfl⟩
    rw [hchunk, step_outro_ok_events hr]
    rfl

/-! ## Claims about the timeline assemblers -/

/-- C4 counterexample: the CLI assembler on the order Intro, Middle, Outro
inserts exactly one song block, not two: the block after the Middle segment
is skipped because the next segment is an Outro. -/
theorem C4_counterexample :
    BuildRadioShow.build_radio_show decOne cfgTinyCli segsIMO ["sg"]
      = Except.ok ([Sample.silence, Sample.silence, Sample.silence, Sample.silence],
          [RadioStationGui.BuildEvent.seg "001_intro", RadioStationGui.BuildEvent.songBlock,
           RadioStationGui.BuildEvent.seg "002_news", RadioStationGui.BuildEvent.seg "003_outro"])
    ∧ ¬ (([RadioStationGui.BuildEvent.seg "001_intro", RadioStationGui.BuildEvent.songBlock,
           RadioStationGui.BuildEvent.seg "002_news",
           RadioStationGui.BuildEvent.seg "003_outro"]).count
          RadioStationGui.BuildEvent.songBlock = 2) := by
  have hi1 : is_intro "001_intro" = true := by decide
  have hi2 : is_intro "002_news" = false := by decide
  have ho2 : is_outro "002_news" = false := by decide
  have hi3 : is_intro "003_outro" = false := by decide
  have ho3 : is_outro "003_outro" = true := by decide
  constructor
  · simp [BuildRadioShow.build_radio_show, BuildRadioShow.build_radio_show_go, segsIMO,
      BuildRadioShow.create_song_block, BuildRadioShow.song_block_loop1,
      BuildRadioShow.song_block_loop2, decOne, cfgTinyCli, apply_fade, fade_in, fade_out,
      fadeInFrom, fadeOutFrom, appendCrossfade, hi1, hi2, ho2, hi3, ho3,
      List.get_cons_zero]
  · decide

/-- C4 amended: for the segment order Intro, Middle, Outro with
songs_between at least 1, the GUI assembler of radio_station_gui.py inserts
exactly 2 song blocks in any completed build (one right after the Intro,
one right after the Middle, none after the Outro), while the CLI assembler
of build_radio_show.py skips the block after a Middle segment that precedes
an Outro and inserts exactly 1 (after the Intro only); neither inserts a
block after the Outro. -/
theorem C4_song_block_placement (cfg : RadioStationGui.GuiCfg)
    (shuffle : List String → List String) (decode : String → Option Buffer) (fuel : Nat)
    (n1 n2 n3 : String) (v1 v2 v3 : Buffer) (songs : List String)
    (cfg2 : BuildRadioShow.CliCfg) (decode2 : String → Option Buffer)
    (w1 w2 w3 : Buffer) (songs2 : List String)
    (h1 : is_intro n1 = true)
    (h2i : is_intro n2 = false) (h2o : is_outro n2 = false)
    (h3i : is_intro n3 = false) (h3o : is_outro n3 = true)
    (hsb : 1 ≤ cfg.songs_between) :
    (∀ (buf : Buffer) (tr : List RadioStationGui.BuildEvent),
      RadioStationGui.build_show cfg shuffle decode fuel [(n1, v1), (n2, v2), (n3, v3)] songs
        = some (Except.ok (buf, tr)) →
      ∃ d2 d3,
        tr = [RadioStationGui.BuildEvent.seg n1, RadioStationGui.BuildEvent.songBlock,
              RadioStationGui.BuildEvent.seg n2] ++ d2
          ++ [RadioStationGui.BuildEvent.songBlock, RadioStationGui.BuildEvent.seg n3] ++ d3
        ∧ (d2 = [] ∨ d2 = [RadioStationGui.BuildEvent.duck n2])
        ∧ (d3 = [] ∨ d3 = [RadioStationGui.BuildEvent.duck n3])
        ∧ tr.count RadioStationGui.BuildEvent.songBlock = 2)
    ∧ (∀ (buf : Buffer) (tr : List RadioStationGui.BuildEvent),
      BuildRadioShow.build_radio_show decode2 cfg2 [(n1, w1), (n2, w2), (n3, w3)] songs2
        = Except.ok (buf, tr) →
      tr = [RadioStationGui.BuildEvent.seg n1, RadioStationGui.BuildEvent.songBlock,
            RadioStationGui.BuildEvent.seg n2, RadioStationGui.BuildEvent.seg n3]
        ∧ tr.count RadioStationGui.BuildEvent.songBlock = 1) := by
  constructor
  · intro buf tr h
    unfold RadioStationGui.build_show at h
    rw [if_neg (by simp)] at h
    by_cases hs : songs = []
    · rw [if_pos hs] at h
      simp at h
    · rw [if_neg hs] at h
      obtain ⟨st2, c1, tr2, hp1, hg1, htr⟩ := build_show_go_cons_ok h
      have hc1 := process_segment_intro_chunk h1 hp1
      obtain ⟨st3, c2, tr3, hp2, hg2, htr2⟩ := build_show_go_cons_ok hg1
      obtain ⟨d2, hc2, hd2⟩ := process_segment_middle_chunk h2i h2o hp2
      obtain ⟨st4, c3, tr4, hp3, hg3, htr3⟩ := build_show_go_cons_ok hg2
      obtain ⟨d3, hc3, hd3⟩ := process_segment_outro_chunk h3i h3o hp3
      have htr4 : tr4 = [] := build_show_go_nil_ok hg3
      subst htr4 htr3 htr2 htr hc1 hc2 hc3
      refine ⟨d2, d3, by simp, hd2, hd3, ?_⟩
      rcases hd2 with rfl | rfl <;> rcases hd3 with rfl | rfl <;>
        simp [List.count_cons, List.count_append, List.count_nil]
  · intro buf tr h
    unfold BuildRadioShow.build_radio_show at h
    rw [if_neg (by simp)] at h
    by_cases hs : songs2 = []
    · rw [if_pos hs] at h
      simp at h
    · rw [if_neg hs] at h
      obtain ⟨idxA, fA, trA, hgA, htrA⟩ := cli_go_intro_ok h1 h
      obtain ⟨fB, trB, hgB, htrB⟩ := cli_go_middle_before_outro_ok h2i h2o h3o hgA
      obtain ⟨fC, trC, hgC, htrC⟩ := cli_go_outro_ok h3i h3o hgB
      have htrD : trC = [] := cli_go_nil_ok hgC
      subst htrD htrC htrB htrA
      exact ⟨rfl, by simp [List.count_cons]⟩

/-- C4 witness: a concrete completed GUI build over the order 001_intro,
002_news, 003_outro with one one-song block per slot has the claimed trace
with both duck lists empty and exactly two song blocks. -/
theorem C4_song_block_placement_witness :
    ∃ d2 d3,
      ([RadioStationGui.BuildEvent.seg "001_intro", RadioStationGui.BuildEvent.songBlock,
        RadioStationGui.BuildEvent.seg "002_news", RadioStationGui.BuildEvent.songBlock,
        RadioStationGui.BuildEvent.seg "003_outro"] : List RadioStationGui.BuildEvent)
        = [RadioStationGui.BuildEvent.seg "001_intro", RadioStationGui.BuildEvent.songBlock,
           RadioStationGui.BuildEvent.seg "002_news"] ++ d2
          ++ [RadioStationGui.BuildEvent.songBlock, RadioStationGui.BuildEvent.seg "003_outro"] ++ d3
      ∧ (d2 = [] ∨ d2 = [RadioStationGui.BuildEvent.duck "002_news"])
      ∧ (d3 = [] ∨ d3 = [RadioStationGui.BuildEvent.duck "003_outro"])
      ∧ ([RadioStationGui.BuildEvent.seg "001_intro", RadioStationGui.BuildEvent.songBlock,
          RadioStationGui.BuildEvent.seg "002_news", RadioStationGui.BuildEvent.songBlock,
          RadioStationGui.BuildEvent.seg "003_outro"] : List RadioStationGui.BuildEvent).count
            RadioStationGui.BuildEvent.songBlock = 2 :=
  (C4_song_block_placement cfgTiny (fun l => l) decOne 1 "001_intro" "002_news" "003_outro"
      [Sample.silence] [Sample.silence] [Sample.silence] ["sg"]
      cfgTinyCli decOne [Sample.silence] [Sample.silence] [Sample.silence] ["sg"]
      (by decide) (by decide) (by decide) (by decide) (by decide) (by decide)).1
    (List.replicate 5 Sample.silence)
    [RadioStationGui.BuildEvent.seg "001_intro", RadioStationGui.BuildEvent.songBlock,
     RadioStationGui.BuildEvent.seg "002_news", RadioStationGui.BuildEvent.songBlock,
     RadioStationGui.BuildEvent.seg "003_outro"]
    (by decide)

/-- C10: a segment whose identifier contains both intro and outro as
case-insensitive substrings is classified as Intro, because the intro check
runs first: the GUI segment step equals the intro branch on the fade-
prepared voice (never the outro branch), any completed step emits the
processing event followed by a song block and never a ducking event for it,
and the CLI assembler likewise appends a song block right after it in any
completed build. -/
theorem C10_intro_wins_over_outro (cfg : RadioStationGui.GuiCfg)
    (shuffle : List String → List String) (decode : String → Option Buffer) (fuel : Nat)
    (st : RadioStationGui.GuiState) (name : String) (v0 : Buffer)
    (hi : is_intro name = true) (ho : is_outro name = true) :
    RadioStationGui.process_segment cfg shuffle decode fuel st name v0
      = RadioStationGui.withEvents [RadioStationGui.BuildEvent.seg name]
          (RadioStationGui.step_intro cfg shuffle decode fuel st
            (fade_out cfg.voice_fade (fade_in cfg.voice_fade v0)))
    ∧ (∀ (st2 : RadioStationGui.GuiState) (evs : List RadioStationGui.BuildEvent),
        RadioStationGui.process_segment cfg shuffle decode fuel st name v0
          = some (Except.ok (st2, evs)) →
        evs = [RadioStationGui.BuildEvent.seg name, RadioStationGui.BuildEvent.songBlock]
        ∧ RadioStationGui.BuildEvent.duck name ∉ evs)
    ∧ (∀ (cfg2 : BuildRadioShow.CliCfg) (decode2 : String → Option Buffer)
        (rest : List (String × Buffer)) (songs2 : List String) (buf : Buffer)
        (tr : List RadioStationGui.BuildEvent),
        BuildRadioShow.build_radio_show decode2 cfg2 ((name, v0) :: rest) songs2
          = Except.ok (buf, tr) →
        ∃ tr2, tr = RadioStationGui.BuildEvent.seg name :: RadioStationGui.BuildEvent.songBlock :: tr2) := by
  refine ⟨?_, ?_, ?_⟩
  · simp [RadioStationGui.process_segment, hi]
  · intro st2 evs h
    have hc := process_segment_intro_chunk hi h
    subst hc
    exact ⟨rfl, by simp⟩
  · intro cfg2 decode2 rest songs2 buf tr h
    unfold BuildRadioShow.build_radio_show at h
    rw [if_neg (by simp)] at h
    by_cases hs : songs2 = []
    · rw [if_pos hs] at h
      simp at h
    · rw [if_neg hs] at h
      obtain ⟨idx2, f2, tr2, hg, htr⟩ := cli_go_intro_ok hi h
      exact ⟨tr2, htr⟩

/-- C10 witness: the identifier 004_intro_outro contains both substrings,
its GUI step equals the intro branch on a concrete state, and its completed
step emits the segment event and a song block with no ducking event. -/
theorem C10_intro_wins_over_outro_witness :
    is_intro "004_intro_outro" = true
    ∧ is_outro "004_intro_outro" = true
    ∧ RadioStationGui.process_segment cfgTiny (fun l => l) decOne 1
        { songs := ["sg"], song_index := 0, final := none, last_song := none }
        "004_intro_outro" [Sample.silence]
      = RadioStationGui.withEvents [RadioStationGui.BuildEvent.seg "004_intro_outro"]
          (RadioStationGui.step_intro cfgTiny (fun l => l) decOne 1
            { songs := ["sg"], song_index := 0, final := none, last_song := none }
            (fade_out cfgTiny.voice_fade (fade_in cfgTiny.voice_fade [Sample.silence])))
    ∧ ([RadioStationGui.BuildEvent.seg "004_intro_outro", RadioStationGui.BuildEvent.songBlock]
        = [RadioStationGui.BuildEvent.seg "004_intro_outro", RadioStationGui.BuildEvent.songBlock]
      ∧ RadioStationGui.BuildEvent.duck "004_intro_outro"
          ∉ [RadioStationGui.BuildEvent.seg "004_intro_outro", RadioStationGui.BuildEvent.songBlock]) :=
  ⟨by decide, by decide,
   (C10_intro_wins_over_outro cfgTiny (fun l => l) decOne 1
      { songs := ["sg"], song_index := 0, final := none, last_song := none }
      "004_intro_outro" [Sample.silence] (by decide) (by decide)).1,
   (C10_intro_wins_over_outro cfgTiny (fun l => l) decOne 1
      { songs := ["sg"], song_index := 0, final := none, last_song := none }
      "004_intro_outro" [Sample.silence] (by decide) (by decide)).2.1
     { songs := ["sg"], song_index := 1,
       final := some [Sample.silence, Sample.silence], last_song := some [Sample.silence] }
     [RadioStationGui.BuildEvent.seg "004_intro_outro", RadioStationGui.BuildEvent.songBlock]
     (by decide)⟩
